import Mathlib

/-!
Verification of the kindle_progress event-sourcing core against its
natural-language specification.

The development shallowly embeds the Python sources:
  * `events.py`   — the event model (`KindleEvent` and its four subclasses,
    their `__str__` encoders, `from_str` regex decoders, `__eq__`/`__lt__`);
  * `snapshot.py` — `KindleLibrarySnapshot.process_event` as a fallible state
    transition over an insertion-ordered association list (a Python dict);
  * `store.py`    — `EventStore.get_events`, the lenient replay loop;
  * `main.py`     — `_update`, the reconciliation diff.

Python exceptions become `Except` / `Option` results; Python ints become
`Int`; Python dicts become insertion-ordered association lists.
-/

/-- Python exception kinds raised by the embedded code paths. -/
inductive PyError
  | ValueError
  | KeyError
  | TypeError
  deriving DecidableEq, Repr

/-- Lexicographic comparison of character lists by code point, the semantics
of Python's `<` on the strings involved here. -/
def charListLt : List Char → List Char → Bool
  | [], [] => false
  | [], _ :: _ => true
  | _ :: _, [] => false
  | a :: as, b :: bs => if a < b then true else if b < a then false else charListLt as bs

/-- Python string comparison `s1 < s2`. -/
def pyStrLt (a b : String) : Bool :=
  charListLt a.data b.data

/-- The four event kinds of `events.py`. The Lean inductive admits a
`ReadEvent` with any integer payload; the constructor-time positivity check of
`ReadEvent.__init__` is modelled separately by `ReadEvent_init`. -/
inductive KindleEvent
  | AddEvent (asin : String)
  | SetReadingEvent (asin : String) (initial_position : Int)
  | ReadEvent (asin : String) (progress : Int)
  | SetFinishedEvent (asin : String)
  deriving DecidableEq, Repr

namespace KindleEvent

/-- The `_WEIGHT` class attribute: Add 0, SetReading 1, Read 2, SetFinished 3. -/
def weight : KindleEvent → Nat
  | AddEvent _ => 0
  | SetReadingEvent _ _ => 1
  | ReadEvent _ _ => 2
  | SetFinishedEvent _ => 3

/-- The `asin` attribute common to all event kinds. -/
def asin : KindleEvent → String
  | AddEvent a => a
  | SetReadingEvent a _ => a
  | ReadEvent a _ => a
  | SetFinishedEvent a => a

/-- `KindleEvent.__eq__`: `self.weight == other.weight and self.asin == other.asin`.
Payload fields do not participate in equality. -/
def eq (e₁ e₂ : KindleEvent) : Bool :=
  e₁.weight == e₂.weight && e₁.asin == e₂.asin

/-- `KindleEvent.__lt__`: `self.weight < other.weight and self.asin < other.asin`.
Note the conjunction: this is not a lexicographic comparison of the pair. -/
def lt (e₁ e₂ : KindleEvent) : Bool :=
  decide (e₁.weight < e₂.weight) && pyStrLt e₁.asin e₂.asin

/-- `__str__` of each event class (`POSITION_MEASURE = 'LOCATION'`). -/
def toStr : KindleEvent → String
  | AddEvent a => "ADD " ++ a
  | SetReadingEvent a p => "START READING " ++ a ++ " FROM LOCATION " ++ toString p
  | ReadEvent a p => "READ " ++ a ++ " FOR " ++ toString p ++ " LOCATIONS"
  | SetFinishedEvent a => "FINISHED READING " ++ a

end KindleEvent

/-- Splitting a character list on the space character, keeping empty pieces,
so that a string equals its pieces interleaved with single spaces (the
semantics of splitting on the literal separator `' '`). -/
def splitChars : List Char → List (List Char)
  | [] => [[]]
  | c :: rest =>
      if c = ' ' then [] :: splitChars rest
      else
        match splitChars rest with
        | t :: ts => (c :: t) :: ts
        | [] => [[c]]

/-- Python 2 `\w` without flags: ASCII alphanumerics and underscore. -/
def isWordChar (c : Char) : Bool :=
  c.isAlpha || c.isDigit || c = '_'

/-- A nonempty run of word characters, i.e. a token matched by `\w+`. -/
def wordChars (cs : List Char) : Bool :=
  !cs.isEmpty && cs.all isWordChar

/-- A nonempty run of ASCII digits, i.e. a token matched by `\d+`. -/
def digitChars (cs : List Char) : Bool :=
  !cs.isEmpty && cs.all Char.isDigit

/-- Value of `int(token)` for a token matched by `\d+`. -/
def digitsToInt (cs : List Char) : Int :=
  (cs.foldl (fun n c => 10 * n + (c.toNat - '0'.toNat)) 0 : Nat)

/-- Space-separated tokens of an event line. Every `from_str` regex below is a
concatenation of space-separated literals and of `\w+`/`\d+` captures, and
`\w`/`\d` cannot match a space, so an anchored `re.match` succeeds exactly
when the token list has the literal tokens and well-shaped capture tokens in
the right positions. -/
def tokens (s : String) : List (List Char) :=
  splitChars s.data

/-- `AddEvent.from_str`: `re.match(r'^ADD (\w+)$', string)`. -/
def AddEvent_from_str (s : String) : Option KindleEvent :=
  match tokens s with
  | [t, w] =>
      if t = "ADD".data && wordChars w then some (.AddEvent (String.mk w)) else none
  | _ => none

/-- `SetReadingEvent.from_str`: `re.match(r'^START READING (\w+) FROM \w+ (\d+)$', string)`.
The measure token is an arbitrary `\w+`, not the literal `LOCATION`. -/
def SetReadingEvent_from_str (s : String) : Option KindleEvent :=
  match tokens s with
  | [t₁, t₂, w, t₃, m, d] =>
      if t₁ = "START".data && t₂ = "READING".data && t₃ = "FROM".data &&
          wordChars w && wordChars m && digitChars d then
        some (.SetReadingEvent (String.mk w) (digitsToInt d))
      else none
  | _ => none

/-- `ReadEvent.from_str` as written in the source: it matches
`re.match(r'^FINISHED READING (\w+)$', string)` and returns a
`SetFinishedEvent` — a verbatim copy of `SetFinishedEvent.from_str` (its own
docstring also says it generates a `SetFinishedEvent`). No rule parses the
`READ <id> FOR <int> LOCATIONS` form that `ReadEvent.__str__` produces. -/
def ReadEvent_from_str (s : String) : Option KindleEvent :=
  match tokens s with
  | [t₁, t₂, w] =>
      if t₁ = "FINISHED".data && t₂ = "READING".data && wordChars w then
        some (.SetFinishedEvent (String.mk w))
      else none
  | _ => none

/-- `SetFinishedEvent.from_str`: `re.match(r'^FINISHED READING (\w+)$', string)`. -/
def SetFinishedEvent_from_str (s : String) : Option KindleEvent :=
  match tokens s with
  | [t₁, t₂, w] =>
      if t₁ = "FINISHED".data && t₂ = "READING".data && wordChars w then
        some (.SetFinishedEvent (String.mk w))
      else none
  | _ => none

/-- Decoding a single line against the known kinds in the order the store
tries them (`AddEvent, SetReadingEvent, ReadEvent, SetFinishedEvent`),
returning the first success; `none` models `EventParseError` from every kind. -/
def decode (s : String) : Option KindleEvent :=
  (AddEvent_from_str s).orElse fun _ =>
    (SetReadingEvent_from_str s).orElse fun _ =>
      (ReadEvent_from_str s).orElse fun _ =>
        SetFinishedEvent_from_str s

/-- `ReadEvent.__init__`: raises `ValueError('Progress field must be positive')`
when `progress <= 0`, otherwise yields the constructed event. -/
def ReadEvent_init (asin : String) (progress : Int) : Except PyError KindleEvent :=
  if progress ≤ 0 then .error .ValueError
  else .ok (.ReadEvent asin progress)

/-! ### Snapshot (`snapshot.py`) -/

/-- The `ReadingStatus` enum: `COMPLETED, CURRENT, NOT_STARTED = xrange(3)`. -/
inductive ReadingStatus
  | COMPLETED
  | CURRENT
  | NOT_STARTED
  deriving DecidableEq, Repr

/-- One value of the snapshot's per-item dict: `{'status': ..., 'progress': ...}`,
where `progress` is `None` until a `SetReadingEvent` is applied. -/
structure Entry where
  status : ReadingStatus
  progress : Option Int
  deriving DecidableEq, Repr

/-- Lookup in an insertion-ordered association list modelling a Python dict
(first binding wins). -/
def lookupEntry (data : List (String × Entry)) (a : String) : Option Entry :=
  match data with
  | [] => none
  | (k, v) :: rest => if k = a then some v else lookupEntry rest a

/-- Python dict assignment `data[a] = e`: an existing binding is replaced in
place, a new key is appended at the end of the insertion order. -/
def setKey (data : List (String × Entry)) (a : String) (e : Entry) :
    List (String × Entry) :=
  match data with
  | [] => [(a, e)]
  | (k, v) :: rest => if k = a then (k, e) :: rest else (k, v) :: setKey rest a e

/-- `KindleLibrarySnapshot.process_event`. Missing keys raise `KeyError` via
`self.data[event.asin]`, and `ReadEvent` on a `None` progress raises
`TypeError` from `None + int`. In every raising case the exception fires on
the first dict access or on the `+` itself, before any assignment, so the
dict is left unmutated — hence the `Except` embedding, which produces no new
state on error. -/
def process_event (data : List (String × Entry)) (e : KindleEvent) :
    Except PyError (List (String × Entry)) :=
  match e with
  | .AddEvent a => .ok (setKey data a ⟨.NOT_STARTED, none⟩)
  | .SetReadingEvent a p =>
      match lookupEntry data a with
      | none => .error .KeyError
      | some _ => .ok (setKey data a ⟨.CURRENT, some p⟩)
  | .ReadEvent a d =>
      match lookupEntry data a with
      | none => .error .KeyError
      | some ent =>
          match ent.progress with
          | none => .error .TypeError
          | some pr => .ok (setKey data a ⟨ent.status, some (pr + d)⟩)
  | .SetFinishedEvent a =>
      match lookupEntry data a with
      | none => .error .KeyError
      | some ent => .ok (setKey data a ⟨.COMPLETED, ent.progress⟩)

/-- `KindleLibrarySnapshot.__init__`: fold a sequence of events into the empty
dict, stopping at the first exception. -/
def process_events (data : List (String × Entry)) (es : List KindleEvent) :
    Except PyError (List (String × Entry)) :=
  es.foldlM process_event data

/-! ### Event store replay (`store.py`) -/

/-- The inner loop of `EventStore.get_events` for a single line: each of the
four `from_str` rules is tried in order and every success is appended — there
is no `break`, so one line can contribute more than one event. -/
def lineEvents (s : String) : List KindleEvent :=
  [AddEvent_from_str s, SetReadingEvent_from_str s,
   ReadEvent_from_str s, SetFinishedEvent_from_str s].filterMap id

/-- The `events` list built by `EventStore.get_events` over the log's lines. -/
def collectEvents (lines : List String) : List KindleEvent :=
  lines.foldl (fun acc l => acc ++ lineEvents l) []

/-- `EventStore.get_events` as the caller observes it: the method builds the
`events` list but its body ends with the loop — there is no `return`
statement, so Python returns the implicit `None`. -/
def get_events (lines : List String) : Option (List KindleEvent) :=
  let _events := collectEvents lines
  none

/-! ### Reconciler (`main._update`) -/

/-- `main._update`. For each book of the freshly fetched catalog, in catalog
order: a `KeyError` on `snapshot.data[book.asin]` emits `AddEvent`; otherwise,
when the stored status is `CURRENT`, the delta of observed position over
stored progress emits a `ReadEvent` when positive and nothing otherwise.
`current_progress` is modelled from the spec: the source reads
`current_progress[book.asin].locs[1]` where `.locs` belongs to the
`kindle_api.reader` module absent from the sources; per the spec, the value
consulted is the observed current position (`observedProgress[id].currentPosition`).
A missing progress entry (`KeyError`) or a `None` stored progress
(`TypeError` on `int - None`) propagates, modelled by the overall `none`. -/
def update (snapshot : List (String × Entry)) (current_books : List String)
    (current_progress : String → Option Int) : Option (List KindleEvent) :=
  match current_books with
  | [] => some []
  | b :: rest =>
      match lookupEntry snapshot b with
      | none => (update snapshot rest current_progress).map (.AddEvent b :: ·)
      | some data =>
          if data.status = .CURRENT then
            match current_progress b, data.progress with
            | some pos, some pr =>
                let change := pos - pr
                if 0 < change then
                  (update snapshot rest current_progress).map (.ReadEvent b change :: ·)
                else update snapshot rest current_progress
            | _, _ => none
          else update snapshot rest current_progress

/-- Restatement of `computeDiff` in the specification's words, for comparison
with `update`: for each observed item in catalog order, emit `Add(id)` when
the id is absent from the snapshot; emit `Read(id, delta)` with
`delta = observed current position - stored progress` when the status is
`current` and `delta > 0`; emit nothing otherwise. -/
def computeDiffSpec (snapshot : List (String × Entry)) (catalog : List String)
    (prog : String → Option Int) : List KindleEvent :=
  match catalog with
  | [] => []
  | b :: rest =>
      let tail := computeDiffSpec snapshot rest prog
      match lookupEntry snapshot b with
      | none => .AddEvent b :: tail
      | some data =>
          if data.status = .CURRENT then
            let delta := (prog b).getD 0 - data.progress.getD 0
            if 0 < delta then .ReadEvent b delta :: tail else tail
          else tail

/-! ### Python `sorted` (CPython list.sort on short lists) -/

/-- Maximal weakly ascending continuation of a run: extend with `y` while
`lt y last` is false (CPython `count_run`, ascending case). Returns the run
continuation and the untouched remainder. -/
def takeAscRun (lt : α → α → Bool) : α → List α → List α × List α
  | _, [] => ([], [])
  | last, y :: ys =>
      if lt y last then ([], y :: ys)
      else
        let (r, rest) := takeAscRun lt y ys
        (y :: r, rest)

/-- Maximal strictly descending continuation of a run: extend with `y` while
`lt y last` is true (CPython `count_run`, descending case). -/
def takeDescRun (lt : α → α → Bool) : α → List α → List α × List α
  | _, [] => ([], [])
  | last, y :: ys =>
      if lt y last then
        let (r, rest) := takeDescRun lt y ys
        (y :: r, rest)
      else ([], y :: ys)

/-- The binary search of CPython's `binarysort`: find the insertion index of
`x` in `arr[l..r)` by halving — `if x < arr[m] then r := m else l := m + 1`.
The fuel argument only bounds the iteration count; `r - l` shrinks at every
step, so any fuel of at least `r - l` computes the loop's exact result. -/
def binPos (lt : α → α → Bool) (arr : List α) (x : α) : Nat → Nat → Nat → Nat
  | 0, l, _ => l
  | fuel + 1, l, r =>
      if l < r then
        let m := l + (r - l) / 2
        if lt x (arr.getD m x) then binPos lt arr x fuel l m
        else binPos lt arr x fuel (m + 1) r
      else l

/-- One insertion step of CPython's `binarysort`. -/
def binInsert (lt : α → α → Bool) (sorted : List α) (x : α) : List α :=
  let pos := binPos lt sorted x (sorted.length + 1) 0 sorted.length
  sorted.take pos ++ x :: sorted.drop pos

/-- CPython's `sorted` for lists of fewer than 64 elements (`minrun = n`): the
initial natural run is detected (`count_run`; a strictly descending run is
reversed), and every remaining element is inserted, in order, into the
growing sorted prefix by `binarysort`. `sorted` consults only `__lt__`. -/
def pySorted (lt : α → α → Bool) (l : List α) : List α :=
  match l with
  | [] => []
  | [x] => [x]
  | a₀ :: a₁ :: rest =>
      let (run, remaining) :=
        if lt a₁ a₀ then
          let (r, rem) := takeDescRun lt a₁ rest
          ((a₀ :: a₁ :: r).reverse, rem)
        else
          let (r, rem) := takeAscRun lt a₁ rest
          (a₀ :: a₁ :: r, rem)
      remaining.foldl (binInsert lt) run

/-! ### Dict-model lemmas -/

/-- Assigning a key makes it resolvable to the assigned value. -/
theorem lookupEntry_setKey_self (data : List (String × Entry)) (a : String) (e : Entry) :
    lookupEntry (setKey data a e) a = some e := by
  induction data with
  | nil => simp [setKey, lookupEntry]
  | cons kv rest ih =>
      obtain ⟨k, v⟩ := kv
      by_cases h : k = a
      · simp [setKey, lookupEntry, h]
      · simp [setKey, lookupEntry, h, ih]

/-- Assigning one key leaves every other key's lookup unchanged. -/
theorem lookupEntry_setKey_other (data : List (String × Entry)) (a b : String) (e : Entry)
    (hne : b ≠ a) : lookupEntry (setKey data a e) b = lookupEntry data b := by
  induction data with
  | nil => simp [setKey, lookupEntry, Ne.symm hne]
  | cons kv rest ih =>
      obtain ⟨k, v⟩ := kv
      by_cases h : k = a
      · subst h
        simp [setKey, lookupEntry, Ne.symm hne]
      · simp [setKey, lookupEntry, h, ih]

/-! ### Cross-checks of the `pySorted` model

Each event permutation below was also run through CPython's `sorted` with the
source's `__lt__`; the model reproduces the interpreter's output on all six
permutations of the three events of §8's ordering example. -/

theorem pySorted_perm_ASR :
    pySorted KindleEvent.lt
        [.AddEvent "B1", .SetReadingEvent "B1" 0, .ReadEvent "B2" 1] =
      [.AddEvent "B1", .SetReadingEvent "B1" 0, .ReadEvent "B2" 1] := by decide

theorem pySorted_perm_ARS :
    pySorted KindleEvent.lt
        [.AddEvent "B1", .ReadEvent "B2" 1, .SetReadingEvent "B1" 0] =
      [.AddEvent "B1", .SetReadingEvent "B1" 0, .ReadEvent "B2" 1] := by decide

theorem pySorted_perm_SRA :
    pySorted KindleEvent.lt
        [.SetReadingEvent "B1" 0, .ReadEvent "B2" 1, .AddEvent "B1"] =
      [.SetReadingEvent "B1" 0, .AddEvent "B1", .ReadEvent "B2" 1] := by decide

theorem pySorted_perm_RSA :
    pySorted KindleEvent.lt
        [.ReadEvent "B2" 1, .SetReadingEvent "B1" 0, .AddEvent "B1"] =
      [.SetReadingEvent "B1" 0, .AddEvent "B1", .ReadEvent "B2" 1] := by decide

/-! ### Claims -/

/-- Claim C1, evaluated at the failing input: the canonical encoding of
`Read("B1", 5)` is `READ B1 FOR 5 LOCATIONS`, and decoding it fails against
every event kind's rule — `ReadEvent.from_str` only matches
`FINISHED READING` strings — so `decode(encode(e))` raises `EventParseError`
instead of returning an event equal to `e`. The round-trip law fails for the
`Read` kind. -/
theorem C1_read_roundtrip_fails :
    (KindleEvent.ReadEvent "B1" 5).toStr = "READ B1 FOR 5 LOCATIONS" ∧
    decode ((KindleEvent.ReadEvent "B1" 5).toStr) = none := ⟨rfl, rfl⟩

/-- Claim C2: `_update` emits, for each observed catalog item in order,
`Add(id)` when the id is absent from the snapshot, `Read(id, delta)` with
`delta` = observed current position minus stored progress when the stored
status is `current` and `delta > 0`, and nothing otherwise — exactly the
specification's `computeDiff` — whenever each `current` catalog item has an
observed position and a non-null stored progress. -/
theorem C2_update_refines_spec (snapshot : List (String × Entry))
    (catalog : List String) (prog : String → Option Int)
    (h : ∀ b ∈ catalog, ∀ data, lookupEntry snapshot b = some data →
        data.status = .CURRENT → (∃ p, prog b = some p) ∧ ∃ q, data.progress = some q) :
    update snapshot catalog prog = some (computeDiffSpec snapshot catalog prog) := by
  induction catalog with
  | nil => rfl
  | cons b rest ih =>
      have hrest := fun b' hb' => h b' (List.mem_cons_of_mem _ hb')
      have ihr := ih hrest
      cases hl : lookupEntry snapshot b with
      | none => simp [update, computeDiffSpec, hl, ihr]
      | some data =>
          by_cases hs : data.status = .CURRENT
          · obtain ⟨⟨p, hp⟩, q, hq⟩ := h b (List.mem_cons_self b rest) data hl hs
            by_cases hc : (0 : Int) < p - q
            · simp [update, computeDiffSpec, hl, hs, hp, hq, hc, ihr]
            · simp [update, computeDiffSpec, hl, hs, hp, hq, hc, ihr]
          · simp [update, computeDiffSpec, hl, hs, ihr]

/-- Witness for C2 at the specification's own example: snapshot
`{B1: {status: current, progress: 100}}` with observed position 140 yields
exactly `[Read("B1", 40)]`. -/
theorem C2_update_refines_spec_witness :
    update [("B1", ⟨.CURRENT, some 100⟩)] ["B1"] (fun _ => some 140) =
      some (computeDiffSpec [("B1", ⟨.CURRENT, some 100⟩)] ["B1"] (fun _ => some 140)) ∧
    update [("B1", ⟨.CURRENT, some 100⟩)] ["B1"] (fun _ => some 140) =
      some [.ReadEvent "B1" 40] := by
  constructor
  · refine C2_update_refines_spec _ _ _ ?_
    intro b hb data hd hs
    simp only [List.mem_singleton] at hb
    subst hb
    have hdata : (⟨.CURRENT, some 100⟩ : Entry) = data := Option.some.inj hd
    subst hdata
    exact ⟨⟨140, rfl⟩, 100, rfl⟩
  · decide

/-- Claim C3, evaluated at the failing input: on a log holding the single
line `FINISHED READING B1`, the `events` list that `get_events` builds holds
that line's event twice (the loop over the four kinds has no `break` and both
`ReadEvent.from_str` and `SetFinishedEvent.from_str` accept the line), and
the method then returns `None` — its body has no `return` statement — rather
than the decoded sequence its docstring promises. -/
theorem C3_get_events_diverges :
    get_events ["FINISHED READING B1"] = none ∧
    collectEvents ["FINISHED READING B1"] =
      [.SetFinishedEvent "B1", .SetFinishedEvent "B1"] := ⟨rfl, rfl⟩

/-- Counterexample to claim C4: `__lt__` is not the lexicographic order on
(weight, id) — `Add("B1") < SetReading("B1", 0)` is `False` although the
weights compare 0 < 1 — and sorting the permutation
`[SetReading("B1", 0), Add("B1"), Read("B2", 1)]` of the spec's example list
leaves it unchanged instead of producing
`[Add("B1"), SetReading("B1", 0), Read("B2", 1)]`. -/
theorem C4_sort_counterexample :
    pySorted KindleEvent.lt
        [.SetReadingEvent "B1" 0, .AddEvent "B1", .ReadEvent "B2" 1] ≠
      [.AddEvent "B1", .SetReadingEvent "B1" 0, .ReadEvent "B2" 1] ∧
    KindleEvent.lt (.AddEvent "B1") (.SetReadingEvent "B1" 0) = false :=
  ⟨by decide, rfl⟩

/-- Claim C4 as amended: with the source's conjunctive comparison (`e₁ < e₂`
iff both the weight and the id compare strictly less), sorting the example
list in its given order `[Read("B2", 1), Add("B1"), SetReading("B1", 0)]`
does yield `[Add("B1"), SetReading("B1", 0), Read("B2", 1)]`. -/
theorem C4_sort_given_order :
    pySorted KindleEvent.lt
        [.ReadEvent "B2" 1, .AddEvent "B1", .SetReadingEvent "B1" 0] =
      [.AddEvent "B1", .SetReadingEvent "B1" 0, .ReadEvent "B2" 1] := by decide

/-- Claim C5, evaluated at the failing input: the string
`FINISHED READING B1` is accepted by the decode rules of two different event
kinds — `ReadEvent.from_str` and `SetFinishedEvent.from_str` carry the same
grammar (and both return a `SetFinishedEvent`) — so the kinds' grammars are
not mutually exclusive. -/
theorem C5_shared_decode_grammar :
    ReadEvent_from_str "FINISHED READING B1" = some (.SetFinishedEvent "B1") ∧
    SetFinishedEvent_from_str "FINISHED READING B1" = some (.SetFinishedEvent "B1") :=
  ⟨rfl, rfl⟩

/-- Claim C6: folding `[Add("B1"), SetReading("B1", 100), Read("B1", 50)]`
into an initially empty snapshot yields exactly
`{B1: {status: current, progress: 150}}`. -/
theorem C6_fold_example :
    process_events [] [.AddEvent "B1", .SetReadingEvent "B1" 100, .ReadEvent "B1" 50] =
      .ok [("B1", ⟨.CURRENT, some 150⟩)] := rfl

/-- Claim C7: `SetReading`, `Read` and `SetFinished` on an id with no
snapshot entry fail with a propagated `KeyError`, and `Read` on an entry
whose progress is `None` fails with a `TypeError`. Each exception fires on
the first dict access, before any assignment, so no state is produced and
the snapshot — its other entries included — is unchanged in the caller's
hands. -/
theorem C7_missing_state_errors (data : List (String × Entry)) (a : String) (p d : Int) :
    (lookupEntry data a = none →
        process_event data (.SetReadingEvent a p) = .error .KeyError ∧
        process_event data (.ReadEvent a d) = .error .KeyError ∧
        process_event data (.SetFinishedEvent a) = .error .KeyError) ∧
    (∀ st, lookupEntry data a = some ⟨st, none⟩ →
        process_event data (.ReadEvent a d) = .error .TypeError) := by
  constructor
  · intro h
    refine ⟨?_, ?_, ?_⟩ <;> simp [process_event, h]
  · intro st h
    simp [process_event, h]

/-- Witness for C7: `SetReading` on the empty snapshot raises `KeyError`, and
`Read` on a freshly added (`None`-progress) entry raises `TypeError`. -/
theorem C7_missing_state_errors_witness :
    process_event [] (.SetReadingEvent "B1" 5) = .error .KeyError ∧
    process_event [("B1", ⟨.NOT_STARTED, none⟩)] (.ReadEvent "B1" 3) = .error .TypeError :=
  ⟨((C7_missing_state_errors [] "B1" 5 3).1 rfl).1,
   (C7_missing_state_errors [("B1", ⟨.NOT_STARTED, none⟩)] "B1" 5 3).2 .NOT_STARTED rfl⟩

/-- Claim C8: constructing a `Read` event with a non-positive delta fails
with `ValueError`, for every item id; any strictly positive integer delta
succeeds. -/
theorem C8_read_delta_positivity (a : String) (d : Int) :
    (d ≤ 0 → ReadEvent_init a d = .error .ValueError) ∧
    (0 < d → ReadEvent_init a d = .ok (.ReadEvent a d)) := by
  constructor
  · intro h
    simp [ReadEvent_init, h]
  · intro h
    simp [ReadEvent_init, not_le.mpr h]

/-- Witness for C8 at the specification's examples: deltas 0 and -5 fail,
delta 1 succeeds. -/
theorem C8_read_delta_positivity_witness :
    ReadEvent_init "B1" 0 = .error .ValueError ∧
    ReadEvent_init "B1" (-5) = .error .ValueError ∧
    ReadEvent_init "B1" 1 = .ok (.ReadEvent "B1" 1) :=
  ⟨(C8_read_delta_positivity "B1" 0).1 (by decide),
   (C8_read_delta_positivity "B1" (-5)).1 (by decide),
   (C8_read_delta_positivity "B1" 1).2 (by decide)⟩

/-- Claim C9: `SetFinished` on an id present in the snapshot succeeds, sets
that entry's status to completed leaving its progress unchanged, and leaves
every other id's lookup unchanged, for every prior snapshot containing the
id. -/
theorem C9_set_finished_frame (data : List (String × Entry)) (a : String) (ent : Entry)
    (h : lookupEntry data a = some ent) :
    ∃ data', process_event data (.SetFinishedEvent a) = .ok data' ∧
      lookupEntry data' a = some ⟨.COMPLETED, ent.progress⟩ ∧
      ∀ b, b ≠ a → lookupEntry data' b = lookupEntry data b := by
  refine ⟨setKey data a ⟨.COMPLETED, ent.progress⟩, ?_, ?_, ?_⟩
  · simp [process_event, h]
  · exact lookupEntry_setKey_self data a _
  · exact fun b hb => lookupEntry_setKey_other data a b _ hb

/-- Witness for C9 on a two-entry snapshot: `B1` is completed with progress
kept at 100 and `B2` is untouched. -/
theorem C9_set_finished_frame_witness :
    ∃ data', process_event [("B1", ⟨.CURRENT, some 100⟩), ("B2", ⟨.NOT_STARTED, none⟩)]
        (.SetFinishedEvent "B1") = .ok data' ∧
      lookupEntry data' "B1" = some ⟨.COMPLETED, some 100⟩ ∧
      ∀ b, b ≠ "B1" → lookupEntry data' b =
        lookupEntry [("B1", ⟨.CURRENT, some 100⟩), ("B2", ⟨.NOT_STARTED, none⟩)] b :=
  C9_set_finished_frame _ "B1" ⟨.CURRENT, some 100⟩ rfl

/-- Claim C10: event equality disregards the numeric payload fields —
`__eq__` compares only the weight and the item id — so two `Read` events (or
two `SetReading` events) on the same id are equal whatever their deltas or
positions. -/
theorem C10_eq_ignores_payload (a : String) (d₁ d₂ p₁ p₂ : Int) :
    KindleEvent.eq (.ReadEvent a d₁) (.ReadEvent a d₂) = true ∧
    KindleEvent.eq (.SetReadingEvent a p₁) (.SetReadingEvent a p₂) = true := by
  simp [KindleEvent.eq, KindleEvent.weight, KindleEvent.asin]
